import Mathlib

/-!
Verification of the rustyscript orchestration layer: a shallow embedding of
the module loader / resolver security policy, the module cache, the value
bridge, the entrypoint resolver and the timeout-bounded execution
coordinator, with theorems checking the natural-language specification
against the code.
-/

namespace Rustyscript

/-! ## Data model -/

/-- A module: a named unit of ECMAScript-module source
(`src/module.rs`, `struct Module { filename, contents }`). -/
structure Module where
  filename : String
  contents : String
deriving DecidableEq, Repr

instance : Inhabited Module := ⟨⟨"", ""⟩⟩

/-- Engine values, abstracted: only the distinctions the orchestration
layer inspects are kept (defined vs `null`/`undefined`, callable vs not).
Callable values are identified by an opaque id, standing for a
`v8::Global<v8::Function>` handle. -/
inductive JsValue where
  | undefined
  | null
  | boolean (b : Bool)
  | number (n : Int)
  | string (s : String)
  | function (id : Nat)
deriving DecidableEq, Repr

/-- The error kinds of the crate's `Error` enum, as used at the call
sites in `src/inner_runtime.rs` and `src/runtime.rs`. -/
inductive Error where
  | valueNotFound (name : String)
  | valueNotCallable (name : String)
  | missingEntrypoint (module : Module)
  | timeout (msg : String)
  | runtime (msg : String)
deriving DecidableEq, Repr

/-- Modelled from the spec: `ModuleHandle` (its defining file is not in
`src/`; only its callers are): `{module: Module, engine_module_id,
entrypoint: optional<callable-handle>}`, created once per successful
`load_modules` call. -/
structure ModuleHandle where
  module : Module
  id : Nat
  entrypoint : Option Nat
deriving DecidableEq, Repr

instance : Inhabited ModuleHandle := ⟨⟨default, 0, none⟩⟩

/-- `ModuleHandle::new(module, id, entrypoint)`. -/
def ModuleHandle.new (module : Module) (id : Nat) (entrypoint : Option Nat) :
    ModuleHandle :=
  ⟨module, id, entrypoint⟩

/-! ## Loader / Resolver (`src/module_loader.rs`) -/

/-- A resolved locator (deno_core's `ModuleSpecifier` / url): the scheme
and the path, as an abstraction of the external url type.  Only
`scheme()`, `path()` and `as_str()` are consumed by the code under
verification. -/
structure Url where
  scheme : String
  path : String
deriving DecidableEq, Repr

/-- `url.as_str()`: the canonical string form of the locator, the
whitelist and cache key. -/
def Url.as_str (u : Url) : String :=
  u.scheme ++ "://" ++ u.path

/-- The errors `RustyLoader::resolve` produces (each carries the
offending specifier, mirroring the `anyhow!` messages). -/
inductive ResolveErr where
  | resolveImportFailed (specifier referrer : String)
  | webImportsNotAllowed (specifier : String)
  | moduleNotLoaded (specifier : String)
  | unrecognizedSchema (specifier : String)
deriving DecidableEq, Repr

/-- The loader state: the per-instance dynamic-filesystem-import
whitelist (`RustyLoader { fs_whlist: Mutex<HashSet<String>>, .. }`).
The set is modelled as a list with membership semantics. -/
structure RustyLoader where
  fs_whlist : List String
deriving DecidableEq, Repr

/-- `RustyLoader::new`: empty whitelist. -/
def RustyLoader.new : RustyLoader := ⟨[]⟩

/-- `RustyLoader::whitelist_add(specifier)`. -/
def RustyLoader.whitelist_add (self : RustyLoader) (specifier : String) :
    RustyLoader :=
  ⟨specifier :: self.fs_whlist⟩

/-- `RustyLoader::whitelist_has(specifier)`. -/
def RustyLoader.whitelist_has (self : RustyLoader) (specifier : String) :
    Bool :=
  self.fs_whlist.contains specifier

/-- `RustyLoader::resolve(specifier, referrer, _kind)`.

`resolve_import` is deno_core's canonicalization of `(specifier,
referrer)` into an absolute locator; it is external, so it is passed in
as a parameter (`none` models its failure).  The compile-time features
`url_import` and `fs_import` are the two capability booleans.  The
returned pair is the loader state after the call (the whitelist may have
grown) and the call's result. -/
def RustyLoader.resolve (resolve_import : String → String → Option Url)
    (url_import fs_import : Bool) (self : RustyLoader)
    (specifier referrer : String) :
    RustyLoader × Except ResolveErr Url :=
  match resolve_import specifier referrer with
  | none => (self, .error (.resolveImportFailed specifier referrer))
  | some url =>
    let self := if referrer == "." then self.whitelist_add url.as_str else self
    if url.scheme == "https" || url.scheme == "http" then
      if url_import then (self, .ok url)
      else (self, .error (.webImportsNotAllowed specifier))
    else if url.scheme == "file" then
      if fs_import then (self, .ok url)
      else if self.whitelist_has url.as_str then (self, .ok url)
      else (self, .error (.moduleNotLoaded specifier))
    else if specifier.startsWith "ext:" then (self, .ok url)
    else (self, .error (.unrecognizedSchema specifier))

/-- A sequence of `resolve` calls against one loader instance, keeping
only the evolving whitelist state. -/
def resolve_seq (resolve_import : String → String → Option Url)
    (url_import fs_import : Bool) :
    RustyLoader → List (String × String) → RustyLoader
  | self, [] => self
  | self, c :: rest =>
    resolve_seq resolve_import url_import fs_import
      (RustyLoader.resolve resolve_import url_import fs_import self c.1 c.2).1
      rest

/-! ## Module cache (`src/module_cache.rs`, `src/module_loader.rs`) -/

/-- `ModuleType`: JavaScript or Json. -/
inductive ModuleType where
  | javaScript
  | json
deriving DecidableEq, Repr

/-- `ModuleSourceCode`: either string source or raw bytes. -/
inductive ModuleSourceCode where
  | string (s : String)
  | bytes (b : List UInt8)
deriving DecidableEq, Repr

/-- `ModuleSource`: the fetched/transpiled payload for one specifier.
Only the fields the orchestration layer reads are kept. -/
structure ModuleSource where
  module_type : ModuleType
  code : ModuleSourceCode
  code_cache : Option (List UInt8)
deriving DecidableEq, Repr

/-- `ModuleCacheProvider::clone_source(specifier, source)`: a fresh
`ModuleSource` with the same module type, a byte-for-byte copy of the
code (`s.to_string()` / `b.to_vec()`), and a clone of the code cache.
In the embedding a deep copy is content-equal to the original. -/
def clone_source (source : ModuleSource) : ModuleSource :=
  { module_type := source.module_type
    code :=
      match source.code with
      | .string s => .string s
      | .bytes b => .bytes b
    code_cache := source.code_cache }

/-- `MemoryModuleCacheProvider`: a mutex-guarded map from specifier
strings to sources, modelled as an association list where `set`
overwrites. -/
structure MemoryModuleCacheProvider where
  entries : List (String × ModuleSource)
deriving DecidableEq, Repr

/-- `MemoryModuleCacheProvider::set`: `HashMap::insert`, replacing any
previous entry for the specifier. -/
def MemoryModuleCacheProvider.set (self : MemoryModuleCacheProvider)
    (specifier : String) (source : ModuleSource) :
    MemoryModuleCacheProvider :=
  ⟨(specifier, source) :: self.entries.filter (fun p => p.1 != specifier)⟩

/-- `MemoryModuleCacheProvider::get`: look up the specifier and return
`clone_source` of the stored entry (never the stored entry itself). -/
def MemoryModuleCacheProvider.get (self : MemoryModuleCacheProvider)
    (specifier : String) : Option ModuleSource :=
  match self.entries.find? (fun p => p.1 == specifier) with
  | some p => some (clone_source p.2)
  | none => none

/-- `RustyLoader::load_external(ms, cp, handler)`.

`handler` is the async fetch strategy (network or filesystem read) and
`transpile` the external `(specifier, source) -> source` transform; both
are parameters.  The result carries the cache state after the call, the
call's outcome, and the number of times the fetch strategy was invoked
during the call. -/
def load_external (cp : MemoryModuleCacheProvider)
    (handler : Url → Except String String)
    (transpile : Url → String → Except String String)
    (ms : Url) :
    MemoryModuleCacheProvider × Except String ModuleSource × Nat :=
  match cp.get ms.as_str with
  | some source => (cp, .ok source, 0)
  | none =>
    let module_type :=
      if ms.path.endsWith ".json" then ModuleType.json
      else ModuleType.javaScript
    match handler ms with
    | .error e => (cp, .error e, 1)
    | .ok code =>
      match transpile ms code with
      | .error e => (cp, .error e, 1)
      | .ok code =>
        let source : ModuleSource := ⟨module_type, .string code, none⟩
        (cp.set ms.as_str (clone_source source), .ok source, 1)

/-! ## Value bridge (`src/inner_runtime.rs`) -/

/-- A scope (the global object, or a module's export namespace) as an
association list of bindings; `object.get` of an absent key yields
`undefined` in the engine. -/
def objectGet (fields : List (String × JsValue)) (key : String) : JsValue :=
  match fields.find? (fun p => p.1 == key) with
  | some p => p.2
  | none => .undefined

/-- The runtime's view of the scopes consulted by `get_value_ref_sync`:
the global scope and the context module's export namespace. -/
structure JsEnv where
  globals : List (String × JsValue)
  exports : List (String × JsValue)
deriving DecidableEq, Repr

/-- Modelled from the spec: `if_defined` from the `traits` module (not
in `src/`): a value is defined unless it is `null` or `undefined` —
"fails with ValueNotFound if both miss or if the value is
null/undefined". -/
def if_defined : JsValue → Option JsValue
  | .null => none
  | .undefined => none
  | v => some v

/-- `InnerRuntime::get_global_value(name)`: read `globalThis.name`,
require it defined. -/
def get_global_value (env : JsEnv) (name : String) :
    Except Error JsValue :=
  match if_defined (objectGet env.globals name) with
  | some v => .ok v
  | none => .error (.valueNotFound name)

/-- `InnerRuntime::get_module_export_value(module_context, name)`: read
`name` from the module's export namespace, require it defined. -/
def get_module_export_value (env : JsEnv) (name : String) :
    Except Error JsValue :=
  match if_defined (objectGet env.exports name) with
  | some v => .ok v
  | none => .error (.valueNotFound name)

/-- `InnerRuntime::get_value_ref_sync(module_context, name)`: global
scope first, export namespace on miss, `ValueNotFound` if both miss. -/
def get_value_ref_sync (env : JsEnv) (name : String) :
    Except Error JsValue :=
  match
    (match get_global_value env name with
     | .ok v => some v
     | .error _ => (get_module_export_value env name).toOption) with
  | some v => .ok v
  | none => .error (.valueNotFound name)

/-- `InnerRuntime::get_value(module_context, name)`: resolve the
reference, then decode it (`serde_v8::from_v8` plus the event-loop
resolve step, abstracted as `decode`). -/
def get_value (decode : JsValue → Except Error JsValue) (env : JsEnv)
    (name : String) : Except Error JsValue :=
  match get_value_ref_sync env name with
  | .error e => .error e
  | .ok v => decode v

/-- `InnerRuntime::get_function_by_name(module_context, name)`: resolve
the value, then `try_into` a function, else `ValueNotCallable`. -/
def get_function_by_name (env : JsEnv) (name : String) :
    Except Error Nat :=
  match get_value_ref_sync env name with
  | .error e => .error e
  | .ok value =>
    match value with
    | .function f => .ok f
    | _ => .error (.valueNotCallable name)

/-- `InnerRuntime::call_function(module_context, name, args)`: look the
function up by name, then invoke it (the engine-side invocation,
including arguments and awaiting, abstracted as `call_impl`). -/
def call_function (call_impl : Nat → Except Error JsValue) (env : JsEnv)
    (name : String) : Except Error JsValue :=
  match get_function_by_name env name with
  | .error e => .error e
  | .ok f => call_impl f

/-! ## Entrypoint resolver
(`src/ext/rustyscript/mod.rs`, `src/inner_runtime.rs`,
`src/runtime.rs`) -/

/-- `op_register_entrypoint(state, callback)`: `state.put(callback)` —
the op state holds at most one `v8::Global<v8::Function>`; a second put
overwrites the first. -/
def op_register_entrypoint (_state : Option Nat) (callback : Nat) :
    Option Nat :=
  some callback

/-- The entrypoint selection in `InnerRuntime::load_modules`:
`try_take` the registered function from the op state; if none, try the
configured default entrypoint name with
`get_function_by_name(stub, name).ok()`.  `env` is the evaluated stub
module's scope view. -/
def find_entrypoint (registered : Option Nat)
    (default_entrypoint : Option String) (env : JsEnv) : Option Nat :=
  match registered with
  | some entrypoint => some entrypoint
  | none =>
    default_entrypoint.bind
      (fun name => (get_function_by_name env name).toOption)

/-- The spec's words for clause (b) of the entrypoint order, stated for
comparison with `find_entrypoint`: "look up that name as an export of
the evaluated module" — an export-namespace-only lookup. -/
def find_default_entrypoint_spec (name : String) (env : JsEnv) :
    Option Nat :=
  match objectGet env.exports name with
  | .function f => some f
  | _ => none

/-- `Runtime::call_entrypoint(module_context, args)`: invoke the
handle's entrypoint if set, else `MissingEntrypoint` naming the
module. -/
def call_entrypoint (call_impl : Nat → Except Error JsValue)
    (module_context : ModuleHandle) : Except Error JsValue :=
  match module_context.entrypoint with
  | some entrypoint => call_impl entrypoint
  | none => .error (.missingEntrypoint module_context.module)

/-! ## Execution coordinator (`src/inner_runtime.rs`) -/

/-- `InnerRuntime::run_async_task(f, timeout)`: `tokio::select!` racing
`sleep(timeout)` against the future.  The race is embedded by explicit
times: `timer_fires` is the instant the timer branch becomes ready and
`future_completes` the instant the future resolves to `res`; the branch
that is ready strictly first wins (a tie is left to the future branch —
neither the code nor the spec fixes it). -/
def run_async_task {α : Type} (timer_fires future_completes : Nat)
    (res : Except Error α) : Except Error α :=
  if timer_fires < future_completes then
    .error (.timeout "Task timed out")
  else res

/-- One entry of the engine interaction trace of `load_modules`: a
module handed to `load_side_es_module_from_code` (`is_main = false`) or
`load_main_es_module_from_code` (`is_main = true`) followed by
`mod_evaluate` and event-loop draining. -/
structure LoadEvent where
  is_main : Bool
  module : Module
deriving DecidableEq, Repr

/-- The side-module loop of `InnerRuntime::load_modules`: for each side
module in order, load + evaluate + drain (one `eng false` step,
combining specifier resolution, transpilation, registration, evaluation
and draining, any of which may fail); on success the "most recent
handle" stub is replaced.  Returns the engine trace and the final stub
or the first error. -/
def load_side_loop (eng : Bool → Module → Except Error Nat) :
    List Module → ModuleHandle → List LoadEvent × Except Error ModuleHandle
  | [], stub => ([], .ok stub)
  | m :: rest, _stub =>
    match eng false m with
    | .error e => ([⟨false, m⟩], .error e)
    | .ok modid =>
      let r := load_side_loop eng rest (ModuleHandle.new m modid none)
      (⟨false, m⟩ :: r.1, r.2)

/-- `InnerRuntime::load_modules(main_module, side_modules)`.

Fails synchronously when both inputs are empty, before the
timeout-bounded task is started (the returned trace is the sequence of
engine load steps; it is empty in that case).  Otherwise side modules
are processed strictly before the main module, and the final handle gets
the resolved entrypoint (`registered` is the op-state content left by
the evaluation, `env` the stub module's scope view). -/
def load_modules (eng : Bool → Module → Except Error Nat)
    (registered : Option Nat) (default_entrypoint : Option String)
    (env : JsEnv) (main_module : Option Module)
    (side_modules : List Module) :
    List LoadEvent × Except Error ModuleHandle :=
  if main_module.isNone && side_modules.isEmpty then
    ([], .error (.runtime "Internal error: attempt to load no modules"))
  else
    let r := load_side_loop eng side_modules default
    match r.2 with
    | .error e => (r.1, .error e)
    | .ok stub =>
      match main_module with
      | none =>
        (r.1, .ok (ModuleHandle.new stub.module stub.id
          (find_entrypoint registered default_entrypoint env)))
      | some m =>
        match eng true m with
        | .error e => (r.1 ++ [⟨true, m⟩], .error e)
        | .ok modid =>
          (r.1 ++ [⟨true, m⟩], .ok (ModuleHandle.new m modid
            (find_entrypoint registered default_entrypoint env)))

/-- `Runtime::load_module(module)`:
`self.0.load_modules(None, vec![module])`. -/
def Runtime.load_module (eng : Bool → Module → Except Error Nat)
    (registered : Option Nat) (default_entrypoint : Option String)
    (env : JsEnv) (module : Module) :
    List LoadEvent × Except Error ModuleHandle :=
  load_modules eng registered default_entrypoint env none [module]

/-! ## Theorems -/

/-- Helper: the loader state returned by `resolve` is the input state,
with the resolved locator prepended exactly when the referrer is the
synthetic root and canonicalization succeeded. -/
theorem resolve_fst_eq (ri : String → String → Option Url)
    (ui fi : Bool) (st : RustyLoader) (specifier referrer : String) :
    (RustyLoader.resolve ri ui fi st specifier referrer).1 =
      match ri specifier referrer with
      | none => st
      | some url =>
        if referrer == "." then st.whitelist_add url.as_str else st := by
  cases h : ri specifier referrer with
  | none => simp [RustyLoader.resolve, h]
  | some url =>
    simp only [RustyLoader.resolve, h]
    split_ifs <;> rfl

/-- Helper: `whitelist_add` preserves membership. -/
theorem whitelist_add_mono (st : RustyLoader) (s t : String)
    (h : st.whitelist_has s = true) :
    (st.whitelist_add t).whitelist_has s = true := by
  have h' : s ∈ st.fs_whlist := by
    simpa [RustyLoader.whitelist_has] using h
  simp [RustyLoader.whitelist_has, RustyLoader.whitelist_add, h']

/-- Helper: one `resolve` call preserves whitelist membership. -/
theorem resolve_whitelist_mono (ri : String → String → Option Url)
    (ui fi : Bool) (st : RustyLoader) (specifier referrer s : String)
    (h : st.whitelist_has s = true) :
    (RustyLoader.resolve ri ui fi st specifier referrer).1.whitelist_has s
      = true := by
  rw [resolve_fst_eq]
  cases hr : ri specifier referrer with
  | none => exact h
  | some url =>
    by_cases hroot : referrer = "."
    · simp only [hroot, beq_self_eq_true, if_true]
      exact whitelist_add_mono st s url.as_str h
    · simp only [beq_iff_eq, hroot, if_false]
      exact h

/-- Helper: any sequence of `resolve` calls preserves whitelist
membership. -/
theorem resolve_seq_mono (ri : String → String → Option Url)
    (ui fi : Bool) (s : String) :
    ∀ (calls : List (String × String)) (st : RustyLoader),
      st.whitelist_has s = true →
      (resolve_seq ri ui fi st calls).whitelist_has s = true := by
  intro calls
  induction calls with
  | nil => intro st h; exact h
  | cons c rest ih =>
    intro st h
    exact ih _ (resolve_whitelist_mono ri ui fi st c.1 c.2 s h)

/-- C1: with the dynamic-filesystem-import capability disabled, a
`file:` specifier resolves successfully only when the resolved locator
is already whitelisted, otherwise it fails with the permission error
("requested module is not loaded"); and a root-referred (`referrer =
"."`) resolution of the same locator always succeeds, because it is
whitelisted before the scheme check. -/
theorem resolve_file_requires_whitelist
    (ri : String → String → Option Url) (ui : Bool) (st : RustyLoader)
    (specifier referrer : String) (url : Url)
    (hres : ri specifier referrer = some url)
    (hscheme : url.scheme = "file") :
    (referrer = "." →
      RustyLoader.resolve ri ui false st specifier referrer =
        (st.whitelist_add url.as_str, Except.ok url))
    ∧ (referrer ≠ "." → st.whitelist_has url.as_str = true →
      RustyLoader.resolve ri ui false st specifier referrer =
        (st, Except.ok url))
    ∧ (referrer ≠ "." → st.whitelist_has url.as_str = false →
      RustyLoader.resolve ri ui false st specifier referrer =
        (st, Except.error (ResolveErr.moduleNotLoaded specifier))) := by
  refine ⟨?_, ?_, ?_⟩
  · intro hroot
    subst hroot
    simp [RustyLoader.resolve, hres, hscheme,
      RustyLoader.whitelist_has, RustyLoader.whitelist_add]
  · intro hroot hhas
    simp [RustyLoader.resolve, hres, hroot, hscheme, hhas]
  · intro hroot hhas
    simp [RustyLoader.resolve, hres, hroot, hscheme, hhas]

/-- C1 witness: on a concrete loader with an empty whitelist, a
root-referred `file:` resolution succeeds and whitelists the locator. -/
theorem resolve_file_requires_whitelist_witness :
    ((fun _ _ => some (Url.mk "file" "a.js")) "./a.js" "." =
        some (Url.mk "file" "a.js"))
    ∧ (Url.mk "file" "a.js").scheme = "file"
    ∧ RustyLoader.resolve (fun _ _ => some (Url.mk "file" "a.js"))
        false false ⟨[]⟩ "./a.js" "." =
      (RustyLoader.whitelist_add ⟨[]⟩ (Url.as_str (Url.mk "file" "a.js")),
        Except.ok (Url.mk "file" "a.js")) :=
  ⟨rfl, rfl,
    (resolve_file_requires_whitelist (fun _ _ => some (Url.mk "file" "a.js"))
      false ⟨[]⟩ "./a.js" "." (Url.mk "file" "a.js") rfl rfl).1 rfl⟩

/-- C8: the loader's whitelist is monotonic: a `resolve` call adds the
resolved locator exactly when the referrer is the synthetic root `"."`
(and canonicalization succeeded), `resolve` and `whitelist_add` never
remove a specifier, and a whitelisted specifier stays whitelisted across
any sequence of subsequent `resolve` calls. -/
theorem whitelist_monotonic (ri : String → String → Option Url)
    (ui fi : Bool) (st : RustyLoader) (specifier referrer s : String) :
    ((RustyLoader.resolve ri ui fi st specifier referrer).1 =
      match ri specifier referrer with
      | none => st
      | some url =>
        if referrer == "." then st.whitelist_add url.as_str else st)
    ∧ (st.whitelist_has s = true →
      (RustyLoader.resolve ri ui fi st specifier referrer).1.whitelist_has s
        = true)
    ∧ (∀ t, st.whitelist_has s = true →
      (st.whitelist_add t).whitelist_has s = true)
    ∧ (∀ calls : List (String × String), st.whitelist_has s = true →
      (resolve_seq ri ui fi st calls).whitelist_has s = true) :=
  ⟨resolve_fst_eq ri ui fi st specifier referrer,
    resolve_whitelist_mono ri ui fi st specifier referrer s,
    fun t => whitelist_add_mono st s t,
    fun calls => resolve_seq_mono ri ui fi s calls st⟩

/-- C8 witness: a concrete whitelisted specifier survives a concrete
`resolve` call and a two-call sequence. -/
theorem whitelist_monotonic_witness :
    (RustyLoader.whitelist_has ⟨["file://x.js"]⟩ "file://x.js" = true)
    ∧ (RustyLoader.resolve (fun _ _ => some (Url.mk "https" "e.com"))
        true true ⟨["file://x.js"]⟩ "https://e.com" "."
        ).1.whitelist_has "file://x.js" = true
    ∧ (resolve_seq (fun _ _ => some (Url.mk "https" "e.com")) true true
        ⟨["file://x.js"]⟩ [("a", "."), ("b", "c")]
        ).whitelist_has "file://x.js" = true :=
  ⟨by decide,
    (whitelist_monotonic (fun _ _ => some (Url.mk "https" "e.com")) true true
      ⟨["file://x.js"]⟩ "https://e.com" "." "file://x.js").2.1 (by decide),
    (whitelist_monotonic (fun _ _ => some (Url.mk "https" "e.com")) true true
      ⟨["file://x.js"]⟩ "a" "." "file://x.js").2.2.2
      [("a", "."), ("b", "c")] (by decide)⟩

/-- Helper: a deep copy of a `ModuleSource` is content-equal to the
original. -/
theorem clone_source_eq_self (src : ModuleSource) :
    clone_source src = src := by
  cases src with
  | mk mt c cc => cases c <;> rfl

/-- Helper: reading back a just-stored specifier from the memory cache
returns a clone of the stored source. -/
theorem cache_set_get (cp : MemoryModuleCacheProvider) (s : String)
    (src : ModuleSource) :
    (cp.set s src).get s = some (clone_source src) := by
  simp [MemoryModuleCacheProvider.get, MemoryModuleCacheProvider.set]

/-- Helper: a successful `load_external` call leaves the source in the
cache under the specifier's string, and invokes the fetch strategy at
most once. -/
theorem load_external_ok_caches (cp : MemoryModuleCacheProvider)
    (handler : Url → Except String String)
    (transpile : Url → String → Except String String) (ms : Url)
    (cp1 : MemoryModuleCacheProvider) (s1 : ModuleSource) (n1 : Nat)
    (h1 : load_external cp handler transpile ms = (cp1, Except.ok s1, n1)) :
    cp1.get ms.as_str = some s1 ∧ n1 ≤ 1 := by
  cases hget : cp.get ms.as_str with
  | some source =>
    simp only [load_external, hget, Prod.mk.injEq, Except.ok.injEq] at h1
    obtain ⟨rfl, rfl, rfl⟩ := h1
    exact ⟨hget, by omega⟩
  | none =>
    cases hh : handler ms with
    | error e => simp [load_external, hget, hh] at h1
    | ok code =>
      cases ht : transpile ms code with
      | error e => simp [load_external, hget, hh, ht] at h1
      | ok tcode =>
        simp only [load_external, hget, hh, ht, Prod.mk.injEq,
          Except.ok.injEq] at h1
        obtain ⟨hcp, hs, hn⟩ := h1
        subst hcp
        subst hs
        subst hn
        constructor
        · rw [cache_set_get, clone_source_eq_self, clone_source_eq_self]
        · omega

/-- C7: after a successful fetch of a specifier through the cache-backed
loader, a second fetch of the same specifier is served from the cache —
the fetch strategy is not invoked again, and the returned source text is
byte-identical — and `clone_source` yields a copy with the same module
type and the same code bytes as its input. -/
theorem cache_fetch_at_most_once (cp : MemoryModuleCacheProvider)
    (handler : Url → Except String String)
    (transpile : Url → String → Except String String) (ms : Url)
    (cp1 : MemoryModuleCacheProvider) (s1 : ModuleSource) (n1 : Nat)
    (h1 : load_external cp handler transpile ms = (cp1, Except.ok s1, n1)) :
    load_external cp1 handler transpile ms = (cp1, Except.ok s1, 0)
    ∧ n1 ≤ 1
    ∧ (∀ src, (clone_source src).module_type = src.module_type
        ∧ (clone_source src).code = src.code) := by
  obtain ⟨hget, hn⟩ := load_external_ok_caches cp handler transpile ms
    cp1 s1 n1 h1
  refine ⟨?_, hn, fun src => by rw [clone_source_eq_self]; exact ⟨rfl, rfl⟩⟩
  simp [load_external, hget]

/-- C7 witness: a concrete double fetch of `file://m.js` through an
initially empty cache. -/
theorem cache_fetch_at_most_once_witness :
    (load_external ⟨[]⟩ (fun _ => Except.ok "let x = 1")
        (fun _ code => Except.ok code) (Url.mk "file" "m.js") =
      (MemoryModuleCacheProvider.mk
          [("file://m.js",
            ModuleSource.mk ModuleType.javaScript
              (ModuleSourceCode.string "let x = 1") none)],
        Except.ok (ModuleSource.mk ModuleType.javaScript
          (ModuleSourceCode.string "let x = 1") none), 1))
    ∧ load_external
        (MemoryModuleCacheProvider.mk
          [("file://m.js",
            ModuleSource.mk ModuleType.javaScript
              (ModuleSourceCode.string "let x = 1") none)])
        (fun _ => Except.ok "let x = 1") (fun _ code => Except.ok code)
        (Url.mk "file" "m.js") =
      (MemoryModuleCacheProvider.mk
          [("file://m.js",
            ModuleSource.mk ModuleType.javaScript
              (ModuleSourceCode.string "let x = 1") none)],
        Except.ok (ModuleSource.mk ModuleType.javaScript
          (ModuleSourceCode.string "let x = 1") none), 0) :=
  ⟨by rfl,
    (cache_fetch_at_most_once ⟨[]⟩ (fun _ => Except.ok "let x = 1")
      (fun _ code => Except.ok code) (Url.mk "file" "m.js")
      (MemoryModuleCacheProvider.mk
        [("file://m.js",
          ModuleSource.mk ModuleType.javaScript
            (ModuleSourceCode.string "let x = 1") none)])
      (ModuleSource.mk ModuleType.javaScript
        (ModuleSourceCode.string "let x = 1") none) 1 (by rfl)).1⟩

/-- C5: `get_value_ref_sync` (hence `get_value`) prefers the global
scope: when the global binding of a name is defined, it is returned —
even when the name is also bound as a module export — and the export
namespace is consulted exactly when the global lookup misses. -/
theorem get_value_prefers_global (env : JsEnv) (name : String)
    (g : JsValue) (decode : JsValue → Except Error JsValue) :
    (if_defined (objectGet env.globals name) = some g →
      get_value_ref_sync env name = Except.ok g
      ∧ get_value decode env name = decode g)
    ∧ (if_defined (objectGet env.globals name) = none →
      get_value_ref_sync env name =
        match get_module_export_value env name with
        | .ok v => .ok v
        | .error _ => .error (.valueNotFound name)) := by
  constructor
  · intro hdef
    have hg : get_global_value env name = Except.ok g := by
      simp [get_global_value, hdef]
    constructor
    · simp [get_value_ref_sync, hg]
    · simp [get_value, get_value_ref_sync, hg]
  · intro hmiss
    have hg : get_global_value env name =
        Except.error (Error.valueNotFound name) := by
      simp [get_global_value, hmiss]
    cases he : get_module_export_value env name with
    | ok v => simp [get_value_ref_sync, hg, he, Except.toOption]
    | error e => simp [get_value_ref_sync, hg, he, Except.toOption]

/-- C5 witness: with `x` bound to `1` in the global scope and to `2` in
the export namespace, the global binding is returned; with `y` bound
only as an export, the export is returned after the global miss. -/
theorem get_value_prefers_global_witness :
    (if_defined (objectGet [("x", JsValue.number 1)] "x") =
        some (JsValue.number 1)
      → get_value_ref_sync ⟨[("x", JsValue.number 1)],
          [("x", JsValue.number 2)]⟩ "x" = Except.ok (JsValue.number 1)
        ∧ get_value Except.ok ⟨[("x", JsValue.number 1)],
            [("x", JsValue.number 2)]⟩ "x" = Except.ok (JsValue.number 1))
    ∧ get_value_ref_sync ⟨[("x", JsValue.number 1)],
        [("x", JsValue.number 2)]⟩ "x" = Except.ok (JsValue.number 1)
    ∧ get_value_ref_sync ⟨[], [("y", JsValue.number 3)]⟩ "y" =
        Except.ok (JsValue.number 3) :=
  ⟨(get_value_prefers_global ⟨[("x", JsValue.number 1)],
      [("x", JsValue.number 2)]⟩ "x" (JsValue.number 1) Except.ok).1,
    ((get_value_prefers_global ⟨[("x", JsValue.number 1)],
      [("x", JsValue.number 2)]⟩ "x" (JsValue.number 1) Except.ok).1
      (by decide)).1,
    by
      have := (get_value_prefers_global ⟨[], [("y", JsValue.number 3)]⟩
        "y" JsValue.undefined Except.ok).2 (by decide)
      simpa using this⟩

/-- C6: a name whose binding is `null`/`undefined` or absent in both the
global scope and the export namespace makes `get_value` and
`call_function` fail with `ValueNotFound(name)`; a name resolving to a
defined non-callable value makes `get_function_by_name` and
`call_function` fail with `ValueNotCallable(name)`. -/
theorem value_lookup_error_kinds (env : JsEnv) (name : String)
    (decode : JsValue → Except Error JsValue)
    (call_impl : Nat → Except Error JsValue) :
    (if_defined (objectGet env.globals name) = none →
      if_defined (objectGet env.exports name) = none →
      get_value_ref_sync env name = Except.error (.valueNotFound name)
      ∧ get_value decode env name = Except.error (.valueNotFound name)
      ∧ call_function call_impl env name =
          Except.error (.valueNotFound name))
    ∧ (∀ v, get_value_ref_sync env name = Except.ok v →
      (∀ f, v ≠ JsValue.function f) →
      get_function_by_name env name = Except.error (.valueNotCallable name)
      ∧ call_function call_impl env name =
          Except.error (.valueNotCallable name)) := by
  constructor
  · intro hg he
    have h1 : get_global_value env name =
        Except.error (Error.valueNotFound name) := by
      simp [get_global_value, hg]
    have h2 : get_module_export_value env name =
        Except.error (Error.valueNotFound name) := by
      simp [get_module_export_value, he]
    have h3 : get_value_ref_sync env name =
        Except.error (Error.valueNotFound name) := by
      simp [get_value_ref_sync, h1, h2, Except.toOption]
    exact ⟨h3, by simp [get_value, h3],
      by simp [call_function, get_function_by_name, h3]⟩
  · intro v hv hnf
    have h4 : get_function_by_name env name =
        Except.error (Error.valueNotCallable name) := by
      rw [get_function_by_name, hv]
      cases v with
      | function f => exact absurd rfl (hnf f)
      | undefined => rfl
      | null => rfl
      | boolean b => rfl
      | number n => rfl
      | string s => rfl
    exact ⟨h4, by simp [call_function, h4]⟩

/-- C6 witness: the name `n` bound to `null` globally and absent from
the exports yields `ValueNotFound`; the name `x` bound to the number `2`
yields `ValueNotCallable` from the function lookup. -/
theorem value_lookup_error_kinds_witness :
    (get_value_ref_sync ⟨[("n", JsValue.null)], []⟩ "n" =
        Except.error (.valueNotFound "n")
      ∧ get_value Except.ok ⟨[("n", JsValue.null)], []⟩ "n" =
          Except.error (.valueNotFound "n")
      ∧ call_function (fun f => Except.ok (JsValue.function f))
          ⟨[("n", JsValue.null)], []⟩ "n" =
          Except.error (.valueNotFound "n"))
    ∧ (get_function_by_name ⟨[("x", JsValue.number 2)], []⟩ "x" =
        Except.error (.valueNotCallable "x")
      ∧ call_function (fun f => Except.ok (JsValue.function f))
          ⟨[("x", JsValue.number 2)], []⟩ "x" =
          Except.error (.valueNotCallable "x")) :=
  ⟨(value_lookup_error_kinds ⟨[("n", JsValue.null)], []⟩ "n" Except.ok
      (fun f => Except.ok (JsValue.function f))).1 (by decide) (by decide),
    (value_lookup_error_kinds ⟨[("x", JsValue.number 2)], []⟩ "x" Except.ok
      (fun f => Except.ok (JsValue.function f))).2 (JsValue.number 2)
      (by rfl) (by intro f h; cases h)⟩

/-- C2 counterexample: the default-entrypoint name is NOT looked up only
"as an export of the evaluated module": with `load` bound to a function
in the global scope and absent from the export namespace, the code still
finds an entrypoint, while the spec's export-only lookup finds none. -/
theorem find_entrypoint_export_only_counterexample :
    find_entrypoint none (some "load")
        ⟨[("load", JsValue.function 7)], []⟩ = some 7
    ∧ find_default_entrypoint_spec "load"
        ⟨[("load", JsValue.function 7)], []⟩ = none := by
  constructor <;> rfl

/-- C2 (amended): the entrypoint attached after evaluation is chosen in
this order: a function registered via the host-exposed registration call
wins (a second registration overwrites the first, so at most one is
honored); if none was registered and a default-entrypoint name was
configured, that name is resolved by the standard lookup
(`get_function_by_name`: global scope first, then the module's export
namespace); if neither yields a callable value the entrypoint is unset,
and `call_entrypoint` on such a handle fails with `MissingEntrypoint`
naming the module. -/
theorem entrypoint_resolution (s : Option Nat)
    (f1 f2 f : Nat) (d : String) (env : JsEnv)
    (call_impl : Nat → Except Error JsValue) (h : ModuleHandle) :
    (op_register_entrypoint (op_register_entrypoint s f1) f2 = some f2)
    ∧ (find_entrypoint (some f) (some d) env = some f)
    ∧ (find_entrypoint (some f) none env = some f)
    ∧ (find_entrypoint none (some d) env =
        (get_function_by_name env d).toOption)
    ∧ (find_entrypoint none none env = none)
    ∧ (∀ e, get_function_by_name env d = Except.error e →
        find_entrypoint none (some d) env = none)
    ∧ (h.entrypoint = none →
        call_entrypoint call_impl h =
          Except.error (.missingEntrypoint h.module)) := by
  refine ⟨rfl, rfl, rfl, rfl, rfl, ?_, ?_⟩
  · intro e he
    simp [find_entrypoint, he, Except.toOption]
  · intro hnone
    simp [call_entrypoint, hnone]

/-- C2 witness: with no registration and the default name `load` bound
to a non-callable export, the entrypoint is unset and a concrete handle
without an entrypoint fails with `MissingEntrypoint`. -/
theorem entrypoint_resolution_witness :
    (op_register_entrypoint (op_register_entrypoint none 1) 2 = some 2)
    ∧ find_entrypoint none (some "load")
        ⟨[], [("load", JsValue.number 5)]⟩ = none
    ∧ call_entrypoint (fun i => Except.ok (JsValue.function i))
        (ModuleHandle.new (Module.mk "test.js" "") 3 none) =
        Except.error (.missingEntrypoint (Module.mk "test.js" "")) :=
  ⟨(entrypoint_resolution none 1 2 0 "load"
      ⟨[], [("load", JsValue.number 5)]⟩
      (fun i => Except.ok (JsValue.function i))
      (ModuleHandle.new (Module.mk "test.js" "") 3 none)).1,
    (entrypoint_resolution none 1 2 0 "load"
      ⟨[], [("load", JsValue.number 5)]⟩
      (fun i => Except.ok (JsValue.function i))
      (ModuleHandle.new (Module.mk "test.js" "") 3 none)).2.2.2.2.2.1
      (.valueNotCallable "load") (by rfl),
    (entrypoint_resolution none 1 2 0 "load"
      ⟨[], [("load", JsValue.number 5)]⟩
      (fun i => Except.ok (JsValue.function i))
      (ModuleHandle.new (Module.mk "test.js" "") 3 none)).2.2.2.2.2.2
      rfl⟩

/-- Helper: when every side module loads successfully, the side loop
emits one side load event per module in sequence order and returns the
handle of the last module (or the incoming stub when the list is
empty). -/
theorem load_side_loop_ok (eng : Bool → Module → Except Error Nat)
    (side : List Module)
    (hside : ∀ m ∈ side, ∃ i, eng false m = Except.ok i) :
    ∀ stub, ∃ stub',
      load_side_loop eng side stub =
        (side.map (fun m => LoadEvent.mk false m), Except.ok stub')
      ∧ ((side = [] ∧ stub' = stub)
          ∨ side.getLast? = some stub'.module) := by
  induction side with
  | nil => exact fun stub => ⟨stub, rfl, Or.inl ⟨rfl, rfl⟩⟩
  | cons m rest ih =>
    intro stub
    obtain ⟨i, hi⟩ := hside m (by simp)
    have hrest : ∀ m' ∈ rest, ∃ j, eng false m' = Except.ok j :=
      fun m' hm' => hside m' (by simp [hm'])
    obtain ⟨stub', heq, hlast⟩ := ih hrest (ModuleHandle.new m i none)
    refine ⟨stub', ?_, ?_⟩
    · simp [load_side_loop, hi, heq]
    · rcases hlast with ⟨hnil, hstub⟩ | hlast
      · subst hnil
        right
        simp [hstub, ModuleHandle.new]
      · cases rest with
        | nil => simp at hlast
        | cons r rs =>
          right
          rw [List.getLast?_cons_cons]
          exact hlast

/-- C3: when every given module loads successfully, `load_modules`
drives the engine on the side modules strictly before the main module,
in the caller-supplied order (the engine trace is exactly the side
modules in sequence followed by the main module), and the returned
handle is the main module's when a main module is given, else that of
the last side module. -/
theorem load_modules_order_and_handle
    (eng : Bool → Module → Except Error Nat) (registered : Option Nat)
    (dflt : Option String) (env : JsEnv) (main_module : Option Module)
    (side : List Module)
    (hne : main_module ≠ none ∨ side ≠ [])
    (hside : ∀ m ∈ side, ∃ i, eng false m = Except.ok i)
    (hmain : ∀ m, main_module = some m → ∃ i, eng true m = Except.ok i) :
    (load_modules eng registered dflt env main_module side).1 =
      side.map (fun m => LoadEvent.mk false m)
        ++ main_module.toList.map (fun m => LoadEvent.mk true m)
    ∧ ∃ h, (load_modules eng registered dflt env main_module side).2 =
        Except.ok h
      ∧ ((∃ m, main_module = some m ∧ h.module = m)
          ∨ (main_module = none ∧ side.getLast? = some h.module)) := by
  obtain ⟨stub', hloop, hlast⟩ :=
    load_side_loop_ok eng side hside default
  cases hm : main_module with
  | some m =>
    obtain ⟨i, hi⟩ := hmain m hm
    constructor
    · simp [load_modules, hloop, hi]
    · refine ⟨ModuleHandle.new m i (find_entrypoint registered dflt env),
        ?_, Or.inl ⟨m, rfl, rfl⟩⟩
      simp [load_modules, hloop, hi]
  | none =>
    have hsne : side ≠ [] := by
      rcases hne with h | h
      · rw [hm] at h; exact absurd rfl h
      · exact h
    cases side with
    | nil => exact absurd rfl hsne
    | cons m0 rest =>
      have hnonempty : (none : Option Module).isNone &&
          (m0 :: rest).isEmpty = false := by simp
      rcases hlast with ⟨hnil, _⟩ | hlast
      · exact absurd hnil (by simp)
      · constructor
        · simp [load_modules, hloop]
        · exact ⟨ModuleHandle.new stub'.module stub'.id
            (find_entrypoint registered dflt env),
            by simp [load_modules, hloop], Or.inr ⟨rfl, hlast⟩⟩

/-- C3 witness: one main module and two side modules, all loading
successfully: the trace is both side modules in order then the main
module, and the handle is the main module's. -/
theorem load_modules_order_and_handle_witness :
    (load_modules (fun _ _ => Except.ok 1) none none ⟨[], []⟩
        (some (Module.mk "main.js" "m"))
        [Module.mk "s1.js" "a", Module.mk "s2.js" "b"]).1 =
      [Module.mk "s1.js" "a", Module.mk "s2.js" "b"].map
          (fun m => LoadEvent.mk false m)
        ++ (some (Module.mk "main.js" "m")).toList.map
          (fun m => LoadEvent.mk true m)
    ∧ ∃ h, (load_modules (fun _ _ => Except.ok 1) none none ⟨[], []⟩
        (some (Module.mk "main.js" "m"))
        [Module.mk "s1.js" "a", Module.mk "s2.js" "b"]).2 = Except.ok h
      ∧ ((∃ m, some (Module.mk "main.js" "m") = some m ∧ h.module = m)
          ∨ (some (Module.mk "main.js" "m") = none
              ∧ [Module.mk "s1.js" "a", Module.mk "s2.js" "b"].getLast?
                = some h.module)) :=
  load_modules_order_and_handle (fun _ _ => Except.ok 1) none none
    ⟨[], []⟩ (some (Module.mk "main.js" "m"))
    [Module.mk "s1.js" "a", Module.mk "s2.js" "b"]
    (Or.inl (by simp)) (fun m _ => ⟨1, rfl⟩) (fun m _ => ⟨1, rfl⟩)

/-- C9: `load_modules` with no main module and an empty side sequence
fails with the internal runtime error before any engine interaction:
the engine trace is empty — no module is registered or evaluated and
no timeout-bounded task is started (the emptiness check precedes the
`run_async_task` wrapper in the source). -/
theorem load_modules_empty_input_fails
    (eng : Bool → Module → Except Error Nat) (registered : Option Nat)
    (dflt : Option String) (env : JsEnv) :
    load_modules eng registered dflt env none [] =
      ([], Except.error
        (.runtime "Internal error: attempt to load no modules")) := rfl

/-- C10: `Runtime::load_module(m)` is exactly `load_modules` with no
main module and `[m]` as the side list; on a successful load the
returned handle is that of `m` (the last and only side module), with
entrypoint discovery applied to it. -/
theorem load_module_delegates
    (eng : Bool → Module → Except Error Nat) (registered : Option Nat)
    (dflt : Option String) (env : JsEnv) (m : Module) (i : Nat)
    (h : eng false m = Except.ok i) :
    Runtime.load_module eng registered dflt env m =
      load_modules eng registered dflt env none [m]
    ∧ Runtime.load_module eng registered dflt env m =
      ([LoadEvent.mk false m],
        Except.ok (ModuleHandle.new m i
          (find_entrypoint registered dflt env))) := by
  refine ⟨rfl, ?_⟩
  simp [Runtime.load_module, load_modules, load_side_loop, h,
    ModuleHandle.new]

/-- C10 witness: a concrete single-module load through
`Runtime.load_module`, with the default-entrypoint lookup applied to
the side module's handle. -/
theorem load_module_delegates_witness :
    Runtime.load_module (fun _ _ => Except.ok 4) none (some "load")
        ⟨[], [("load", JsValue.function 9)]⟩ (Module.mk "test.js" "x") =
      load_modules (fun _ _ => Except.ok 4) none (some "load")
        ⟨[], [("load", JsValue.function 9)]⟩ none [Module.mk "test.js" "x"]
    ∧ Runtime.load_module (fun _ _ => Except.ok 4) none (some "load")
        ⟨[], [("load", JsValue.function 9)]⟩ (Module.mk "test.js" "x") =
      ([LoadEvent.mk false (Module.mk "test.js" "x")],
        Except.ok (ModuleHandle.new (Module.mk "test.js" "x") 4
          (find_entrypoint none (some "load")
            ⟨[], [("load", JsValue.function 9)]⟩))) :=
  load_module_delegates (fun _ _ => Except.ok 4) none (some "load")
    ⟨[], [("load", JsValue.function 9)]⟩ (Module.mk "test.js" "x") 4 rfl

/-- C4: in the `run_async_task` race, if the timer fires strictly before
the future completes the call returns the Timeout error — whatever the
future's own outcome (success or failure) would have been — and if the
future completes strictly first its result is returned unchanged. -/
theorem run_async_task_race (α : Type)
    (timer_fires future_completes : Nat) (res : Except Error α) :
    (timer_fires < future_completes →
      run_async_task timer_fires future_completes res =
        Except.error (.timeout "Task timed out"))
    ∧ (future_completes < timer_fires →
      run_async_task timer_fires future_completes res = res) := by
  constructor
  · intro h
    simp [run_async_task, h]
  · intro h
    rw [run_async_task, if_neg (Nat.lt_asymm h)]

/-- C4 witness: a timer at 2 beats a future at 5 (even a successful
one), and a future at 4 beats a timer at 9. -/
theorem run_async_task_race_witness :
    run_async_task 2 5 (Except.ok (7 : Nat)) =
      Except.error (.timeout "Task timed out")
    ∧ run_async_task 9 4 (Except.ok (7 : Nat)) = Except.ok 7 :=
  ⟨(run_async_task_race Nat 2 5 (Except.ok 7)).1 (by decide),
    (run_async_task_race Nat 9 4 (Except.ok 7)).2 (by decide)⟩

end Rustyscript
